import Mathlib

/-!
Shallow embedding of the Group Tracker relay server (Express + Socket.IO,
`server/index.js`): the in-memory group registry and the four socket event
handlers `join_group`, `location_update`, `leave_group` and `disconnect`.

JavaScript values appearing in event payloads are modelled by `JSValue`;
JavaScript numbers are modelled by `JSNum` (a rational, or one of the three
non-finite values `Infinity`, `-Infinity`, `NaN`).  JavaScript objects used
as string-keyed dictionaries (`groups`, `group.members`, the Socket.IO room
table) are modelled as insertion-ordered association lists with unique keys.
Emitted socket messages are collected into a list of `Emit` values instead of
being performed as I/O.
-/

namespace GroupTracker

/-- A JavaScript number: finite (modelled as a rational) or one of the three
non-finite values.  The server never does arithmetic on coordinates, it only
stores them and tests `Number.isNaN`, so rationals are an adequate model of
the finite doubles. -/
inductive JSNum where
  | finite (q : ℚ)
  | posInf
  | negInf
  | nan
deriving DecidableEq

/-- `Number.isNaN`. -/
def JSNum.isNaN : JSNum → Bool
  | .nan => true
  | _ => false

/-- `Number.isFinite`. -/
def JSNum.isFinite : JSNum → Bool
  | .finite _ => true
  | _ => false

/-- A JavaScript value of the kinds that can reach the payload fields of the
handlers: `undefined` (also an absent field), `null`, a boolean, a number or
a string. -/
inductive JSValue where
  | undefined
  | null
  | bool (b : Bool)
  | num (n : JSNum)
  | str (s : String)
deriving DecidableEq

/-- JavaScript truthiness, as used by `!x` and `x || y`. -/
def JSValue.truthy : JSValue → Bool
  | .undefined => false
  | .null => false
  | .bool b => b
  | .num (.finite q) => q ≠ 0
  | .num .nan => false
  | .num .posInf => true
  | .num .negInf => true
  | .str s => s ≠ ""

/-- `x || y` in JavaScript: `x` if truthy, else `y`. -/
def jsOr (x y : JSValue) : JSValue :=
  if x.truthy then x else y

/-- Whitespace as stripped by `String.prototype.trim` (the JavaScript set
also holds some Unicode spaces; the ASCII ones model it here). -/
def isJsWhitespace (c : Char) : Bool :=
  c == ' ' || c == '\t' || c == '\n' || c == '\r'

/-- `s.trim()`: strips leading and trailing whitespace. -/
def jsTrim (s : String) : String :=
  ⟨((s.data.dropWhile isJsWhitespace).reverse.dropWhile isJsWhitespace).reverse⟩

/-- `s.toUpperCase()` on the ASCII range. -/
def jsToUpper (s : String) : String :=
  ⟨s.data.map Char.toUpper⟩

/-- `Number(s)` on a string: the trimmed string is empty (gives `0`),
`Infinity` / `+Infinity` / `-Infinity`, or a signed decimal numeral;
anything else gives `NaN`.  (Exponent and hexadecimal forms, which the
server's clients never send, are mapped to `NaN` by this model.) -/
def parseDigits : List Char → Option ℕ
  | [] => none
  | cs =>
    if cs.all Char.isDigit then
      some (cs.foldl (fun a c => a * 10 + (c.toNat - 48)) 0)
    else none

/-- Parse an unsigned decimal numeral, with an optional fractional part. -/
def parseUnsigned (cs : List Char) : Option ℚ :=
  match cs.splitOn '.' with
  | [intPart] => (parseDigits intPart).map (fun n => (n : ℚ))
  | [intPart, fracPart] =>
    match intPart, fracPart with
    | [], [] => none
    | [], f => (parseDigits f).map (fun n => (n : ℚ) / ((10 : ℚ) ^ f.length))
    | i, [] => (parseDigits i).map (fun n => (n : ℚ))
    | i, f =>
      match parseDigits i, parseDigits f with
      | some a, some b => some ((a : ℚ) + (b : ℚ) / ((10 : ℚ) ^ f.length))
      | _, _ => none
  | _ => none

/-- String-to-number coercion. -/
def parseJSNumString (s : String) : JSNum :=
  let t := jsTrim s
  if t = "" then .finite 0
  else if t = "Infinity" ∨ t = "+Infinity" then .posInf
  else if t = "-Infinity" then .negInf
  else
    match t.data with
    | '-' :: rest => match parseUnsigned rest with
      | some q => .finite (-q)
      | none => .nan
    | '+' :: rest => match parseUnsigned rest with
      | some q => .finite q
      | none => .nan
    | cs => match parseUnsigned cs with
      | some q => .finite q
      | none => .nan

/-- `Number(v)` coercion.  Note `Number(undefined)` is `NaN` while
`Number(null)` is `0`. -/
def JSValue.toNumber : JSValue → JSNum
  | .undefined => .nan
  | .null => .finite 0
  | .bool b => .finite (if b then 1 else 0)
  | .num n => n
  | .str s => parseJSNumString s

/-- Rendering of a number by `String(...)`.  Non-integral finite values get
the model's rational rendering (the server never turns a number into a group
code or user id, so the exact digits are irrelevant to every handler). -/
def JSNum.toJSString : JSNum → String
  | .nan => "NaN"
  | .posInf => "Infinity"
  | .negInf => "-Infinity"
  | .finite q => if q.den = 1 then toString q.num else toString q

/-- `String(v)` coercion. -/
def JSValue.toJSString : JSValue → String
  | .undefined => "undefined"
  | .null => "null"
  | .bool b => if b then "true" else "false"
  | .num n => n.toJSString
  | .str s => s

/-! ### String-keyed dictionaries (JavaScript objects) -/

/-- Property lookup in a string-keyed object, first binding wins (the
handlers keep keys unique, so this agrees with object semantics). -/
def lookupA {α : Type} : List (String × α) → String → Option α
  | [], _ => none
  | (k, v) :: rest, key => if k = key then some v else lookupA rest key

/-- Property assignment `obj[k] = v`: replaces the binding in place if the
key exists, else appends it (JavaScript objects iterate string keys in
insertion order). -/
def updateA {α : Type} : List (String × α) → String → α → List (String × α)
  | [], k, v => [(k, v)]
  | (k', v') :: rest, k, v =>
    if k' = k then (k, v) :: rest else (k', v') :: updateA rest k v

/-- `delete obj[k]`. -/
def eraseA {α : Type} (l : List (String × α)) (k : String) : List (String × α) :=
  l.filter (fun p => p.1 ≠ k)

/-! ### Data model -/

/-- One member record, as built by the handlers.  A member object starts as
`{ userId }`; the remaining properties appear only once assigned, which the
`Option` fields model (`none` = property absent / deleted). -/
structure Member where
  userId : String
  name : Option JSValue
  lat : Option JSNum
  lon : Option JSNum
  sport : Option JSValue
  updatedAt : Option JSValue
  socketId : Option String
deriving DecidableEq

/-- `{ userId }`: a fresh member record with only the id set. -/
def Member.fresh (uid : String) : Member :=
  ⟨uid, none, none, none, none, none, none⟩

/-- A group: its `members` object. -/
structure Group where
  members : List (String × Member)
deriving DecidableEq

/-- The sanitized view of a member produced by `sanitizeGroup`: the same
record minus the `socketId` property (the structure has no such field). -/
structure SanMember where
  userId : String
  name : Option JSValue
  lat : Option JSNum
  lon : Option JSNum
  sport : Option JSValue
  updatedAt : Option JSValue
deriving DecidableEq

/-- Server state: the `groups` registry plus the Socket.IO room table
(room name, then the sockets currently joined to it).  Socket.IO deletes a
room entry once empty; keeping the empty entry is observationally equal for
membership and broadcast targeting. -/
structure ServerState where
  groups : List (String × Group)
  rooms : List (String × List String)
deriving DecidableEq

/-- Outbound message payloads (`socket.emit` / `io.to(room).emit`). -/
inductive OutMsg where
  | groupState (members : List (String × SanMember))
  | memberJoined (userId : String) (name : JSValue)
  | groupLocations (members : List (String × Member))
  | errorMsg (message : String)
deriving DecidableEq

/-- One emission: either to a single socket or to every socket in a room. -/
inductive Emit where
  | toSocket (sid : String) (msg : OutMsg)
  | toRoom (room : String) (msg : OutMsg)
deriving DecidableEq

/-! ### Helpers from the source -/

/-- `normalizeGroup` (source lines 40-43): falsy gives the empty string,
else `String(group).trim().toUpperCase()`. -/
def normalizeGroup (group : JSValue) : String :=
  if !group.truthy then "" else jsToUpper (jsTrim group.toJSString)

/-- `String(payload.userId || '').trim()` as it appears in every handler. -/
def strOfUserId (v : JSValue) : String :=
  jsTrim (JSValue.toJSString (jsOr v (.str "")))

/-- `sanitizeGroup`, per member (source lines 51-59): copies `userId`,
`name`, `lat`, `lon`, `sport`, `updatedAt` and drops `socketId`. -/
def sanitizeMember (m : Member) : SanMember :=
  ⟨m.userId, m.name, m.lat, m.lon, m.sport, m.updatedAt⟩

/-- `sanitizeGroup` (source lines 48-62): one sanitized entry per member.
(The dynamic guard for a missing `members` property cannot fire in the
typed model, where every `Group` has a `members` object.) -/
def sanitizeGroup (g : Group) : List (String × SanMember) :=
  g.members.map (fun p => (p.1, sanitizeMember p.2))

/-- `socket.join(room)`: adds the socket to the room, creating it if absent. -/
def roomJoin (rooms : List (String × List String)) (g sid : String) :
    List (String × List String) :=
  match lookupA rooms g with
  | some l => updateA rooms g (if sid ∈ l then l else l ++ [sid])
  | none => rooms ++ [(g, [sid])]

/-- `socket.leave(room)`: removes the socket from that room. -/
def roomLeave (rooms : List (String × List String)) (g sid : String) :
    List (String × List String) :=
  rooms.map (fun p => if p.1 = g then (p.1, p.2.filter (fun x => x ≠ sid)) else p)

/-- On disconnect Socket.IO removes the socket from every room. -/
def roomsRemoveSocket (rooms : List (String × List String)) (sid : String) :
    List (String × List String) :=
  rooms.map (fun p => (p.1, p.2.filter (fun x => x ≠ sid)))

/-- The sockets currently in a room. -/
def roomSockets (rooms : List (String × List String)) (g : String) : List String :=
  (lookupA rooms g).getD []

/-! ### Event handlers -/

/-- Payload of `join_group`; an absent field reads as `undefined`. -/
structure JoinPayload where
  group : JSValue
  userId : JSValue
  name : JSValue
deriving DecidableEq

/-- Payload of `location_update`. -/
structure LocPayload where
  group : JSValue
  userId : JSValue
  lat : JSValue
  lon : JSValue
  sport : JSValue
  timestamp : JSValue
deriving DecidableEq

/-- Payload of `leave_group`. -/
structure LeavePayload where
  group : JSValue
  userId : JSValue
deriving DecidableEq

/-- The `join_group` handler (source lines 70-99).  Returns the new state
and the emitted messages, in emission order. -/
def join_group (s : ServerState) (sid : String) (p : JoinPayload) :
    ServerState × List Emit :=
  let group := normalizeGroup p.group
  let userId := strOfUserId p.userId
  let name := jsOr p.name (.str "Anonymous")
  if group = "" ∨ userId = "" then
    (s, [.toSocket sid (.errorMsg "group and userId are required to join")])
  else
    let g0 : Group := (lookupA s.groups group).getD ⟨[]⟩
    let m0 : Member := (lookupA g0.members userId).getD (Member.fresh userId)
    let m1 : Member := { m0 with name := some name, socketId := some sid }
    let g1 : Group := ⟨updateA g0.members userId m1⟩
    (⟨updateA s.groups group g1, roomJoin s.rooms group sid⟩,
      [.toSocket sid (.groupState (sanitizeGroup g1)),
       .toRoom group (.memberJoined userId name)])

/-- The `location_update` handler (source lines 101-132).  `now` is the
value `Date.now()` would return at receipt.  `typeof payload.lat ===
'number' ? payload.lat : Number(payload.lat)` is exactly `toNumber`, since
coercion is the identity on numbers. -/
def location_update (s : ServerState) (sid : String) (now : ℚ) (p : LocPayload) :
    ServerState × List Emit :=
  let group := normalizeGroup p.group
  let userId := strOfUserId p.userId
  let lat := p.lat.toNumber
  let lon := p.lon.toNumber
  let sport := jsOr p.sport (.str "unknown")
  let timestamp := jsOr p.timestamp (.num (.finite now))
  if group = "" ∨ userId = "" ∨ lat.isNaN ∨ lon.isNaN then
    (s, [])
  else
    let g0 : Group := (lookupA s.groups group).getD ⟨[]⟩
    let m0 : Member := (lookupA g0.members userId).getD (Member.fresh userId)
    let m1 : Member := { m0 with lat := some lat, lon := some lon,
                                 sport := some sport, updatedAt := some timestamp,
                                 socketId := some sid }
    let g1 : Group := ⟨updateA g0.members userId m1⟩
    (⟨updateA s.groups group g1, s.rooms⟩,
      [.toRoom group (.groupLocations g1.members)])

/-- The `leave_group` handler (source lines 134-149).  The member is deleted
and a broadcast emitted only when the group and the member exist;
`socket.leave(group)` runs on every path past the emptiness guard. -/
def leave_group (s : ServerState) (sid : String) (p : LeavePayload) :
    ServerState × List Emit :=
  let group := normalizeGroup p.group
  let userId := strOfUserId p.userId
  if group = "" ∨ userId = "" then
    (s, [])
  else
    match lookupA s.groups group with
    | some g =>
      if (lookupA g.members userId).isSome then
        let g1 : Group := ⟨eraseA g.members userId⟩
        (⟨updateA s.groups group g1, roomLeave s.rooms group sid⟩,
          [.toRoom group (.groupLocations g1.members)])
      else
        (⟨s.groups, roomLeave s.rooms group sid⟩, [])
    | none =>
      (⟨s.groups, roomLeave s.rooms group sid⟩, [])

/-- One member after the disconnect sweep touches it: `delete m.socketId`
when it referenced the closed socket. -/
def clearMember (sid : String) (m : Member) : Member :=
  if m.socketId = some sid then { m with socketId := none } else m

/-- The sweep over one group's members. -/
def clearGroup (sid : String) (g : Group) : Group :=
  ⟨g.members.map (fun p => (p.1, clearMember sid p.2))⟩

/-- `changed`: some member of the group referenced the closed socket. -/
def groupChanged (sid : String) (g : Group) : Bool :=
  g.members.any (fun p => p.2.socketId = some sid)

/-- The `disconnect` handler (source lines 151-173): sweeps every group,
clears matching `socketId`s, and for each changed group emits one
`group_locations` with that group's (already cleared) member mapping.
Socket.IO itself also drops the closed socket from every room. -/
def disconnect (s : ServerState) (sid : String) : ServerState × List Emit :=
  (⟨s.groups.map (fun p => (p.1, clearGroup sid p.2)),
    roomsRemoveSocket s.rooms sid⟩,
   s.groups.filterMap (fun p =>
     if groupChanged sid p.2 then
       some (.toRoom p.1 (.groupLocations (clearGroup sid p.2).members))
     else none))

/-- The member stored for `uid` in group `g`, if any. -/
def getMember (s : ServerState) (g uid : String) : Option Member :=
  (lookupA s.groups g).bind (fun grp => lookupA grp.members uid)

/-- Recognizes a `group_locations` emission targeted at a given room. -/
def isGroupLocTo (gname : String) : Emit → Bool
  | .toRoom r (.groupLocations _) => r == gname
  | _ => false

/-! ### The two-client scenario of the spec (section 8)

Client A joins `RIDE32` as `alice` on socket `sA`, client B joins as `bob`
on socket `sB`, A sends one location update, then A's socket closes. -/

/-- A's join payload. -/
def demoJoinA : JoinPayload := ⟨.str "RIDE32", .str "alice", .str "Alice"⟩

/-- B's join payload. -/
def demoJoinB : JoinPayload := ⟨.str "RIDE32", .str "bob", .str "Bob"⟩

/-- A's location update (the spec scenario's `{lat: 45.33, lon: -121.71}`
with integral coordinates, which the kernel can evaluate; the handlers never
compute with the coordinate, they only store it). -/
def demoLoc : LocPayload :=
  ⟨.str "RIDE32", .str "alice", .num (.finite 45),
   .num (.finite (-121)), .str "ski", .num (.finite 1000)⟩

/-- The state just before A's socket closes. -/
def demoState : ServerState :=
  (location_update
    (join_group (join_group ⟨[], []⟩ "sA" demoJoinA).1 "sB" demoJoinB).1
    "sA" 999 demoLoc).1

/-- The `RIDE32` group in that state. -/
def demoGroup : Group := (lookupA demoState.groups "RIDE32").getD ⟨[]⟩

/-- Alice's member record in that state. -/
def demoAlice : Member := (lookupA demoGroup.members "alice").getD (Member.fresh "alice")

/-- The member mapping carried by the single broadcast that A's disconnect
triggers. -/
def demoPayload : List (String × Member) :=
  match (disconnect demoState "sA").2 with
  | [.toRoom _ (.groupLocations ms)] => ms
  | _ => []

/-! ### Association-list lemmas -/

theorem lookupA_map_val {α β : Type} (f : α → β) (l : List (String × α)) (k : String) :
    lookupA (l.map (fun p => (p.1, f p.2))) k = (lookupA l k).map f := by
  induction l with
  | nil => rfl
  | cons hd tl ih =>
    obtain ⟨k', v⟩ := hd
    by_cases h : k' = k <;> simp [lookupA, h, ih]

theorem lookupA_updateA_self {α : Type} (l : List (String × α)) (k : String) (v : α) :
    lookupA (updateA l k v) k = some v := by
  induction l with
  | nil => simp [updateA, lookupA]
  | cons hd tl ih =>
    obtain ⟨k', v'⟩ := hd
    by_cases h : k' = k <;> simp [updateA, lookupA, h, ih]

theorem lookupA_eraseA_self {α : Type} (l : List (String × α)) (k : String) :
    lookupA (eraseA l k) k = none := by
  induction l with
  | nil => rfl
  | cons hd tl ih =>
    obtain ⟨k', v'⟩ := hd
    by_cases h : k' = k <;> simp [eraseA, lookupA, h, ih] at ih ⊢ <;> simp [ih]

theorem lookupA_append_none {α : Type} (l1 l2 : List (String × α)) (k : String)
    (h : lookupA l1 k = none) : lookupA (l1 ++ l2) k = lookupA l2 k := by
  induction l1 with
  | nil => rfl
  | cons hd tl ih =>
    obtain ⟨k', v'⟩ := hd
    by_cases hk : k' = k
    · simp [lookupA, hk] at h
    · simp [lookupA, hk] at h ⊢
      exact ih h

theorem mem_of_lookupA {α : Type} (l : List (String × α)) (k : String) (v : α)
    (h : lookupA l k = some v) : (k, v) ∈ l := by
  induction l with
  | nil => simp [lookupA] at h
  | cons hd tl ih =>
    obtain ⟨k', v'⟩ := hd
    by_cases hk : k' = k
    · subst hk
      simp [lookupA] at h
      simp [h]
    · simp [lookupA, hk] at h
      exact List.mem_cons_of_mem _ (ih h)

theorem self_mem_roomJoin (r : List (String × List String)) (g sid : String) :
    sid ∈ roomSockets (roomJoin r g sid) g := by
  unfold roomJoin roomSockets
  cases h : lookupA r g with
  | some l =>
    rw [lookupA_updateA_self]
    by_cases hs : sid ∈ l <;> simp [hs]
  | none =>
    rw [lookupA_append_none _ _ _ h]
    simp [lookupA]

/-! ### Claim theorems -/

/-- C7: a `join_group` whose group code normalizes to the empty string or
whose userId trims to the empty string leaves the state (registry and
rooms) unchanged, creates nothing, and emits exactly one `error` message to
the originating socket and nothing to anyone else. -/
theorem join_invalid_rejected (s : ServerState) (sid : String) (p : JoinPayload)
    (h : normalizeGroup p.group = "" ∨ strOfUserId p.userId = "") :
    join_group s sid p =
      (s, [.toSocket sid (.errorMsg "group and userId are required to join")]) := by
  unfold join_group
  rcases h with h | h <;> simp [h]

theorem join_invalid_rejected_witness :
    join_group ⟨[], []⟩ "s1" ⟨.undefined, .str "u", .undefined⟩ =
      (⟨[], []⟩, [.toSocket "s1" (.errorMsg "group and userId are required to join")]) :=
  join_invalid_rejected ⟨[], []⟩ "s1" ⟨.undefined, .str "u", .undefined⟩ (Or.inl rfl)

/-- C8: a successful `join_group` emits exactly two messages, the
`group_state` snapshot to the joining socket strictly before the
`member_joined {userId, name}` broadcast to the group's room, and at
broadcast time the joining socket is itself in that room. -/
theorem join_snapshot_before_member_joined (s : ServerState) (sid : String) (p : JoinPayload)
    (hg : normalizeGroup p.group ≠ "") (hu : strOfUserId p.userId ≠ "") :
    ∃ snap,
      (join_group s sid p).2 =
        [.toSocket sid (.groupState snap),
         .toRoom (normalizeGroup p.group)
           (.memberJoined (strOfUserId p.userId) (jsOr p.name (.str "Anonymous")))] ∧
      sid ∈ roomSockets (join_group s sid p).1.rooms (normalizeGroup p.group) := by
  unfold join_group
  simp [hg, hu]
  exact self_mem_roomJoin s.rooms (normalizeGroup p.group) sid

theorem join_snapshot_before_member_joined_witness :
    normalizeGroup (.str "g1") ≠ "" ∧ strOfUserId (.str "u1") ≠ "" ∧
    ∃ snap,
      (join_group ⟨[], []⟩ "s1" ⟨.str "g1", .str "u1", .str "Ann"⟩).2 =
        [.toSocket "s1" (.groupState snap),
         .toRoom (normalizeGroup (.str "g1"))
           (.memberJoined (strOfUserId (.str "u1")) (jsOr (.str "Ann") (.str "Anonymous")))] ∧
      "s1" ∈ roomSockets (join_group ⟨[], []⟩ "s1" ⟨.str "g1", .str "u1", .str "Ann"⟩).1.rooms
        (normalizeGroup (.str "g1")) :=
  ⟨by decide, by decide,
    join_snapshot_before_member_joined ⟨[], []⟩ "s1" ⟨.str "g1", .str "u1", .str "Ann"⟩
      (by decide) (by decide)⟩

/-- C5: a second `leave_group` for the same normalized `(group, userId)`
pair, from any socket, leaves the registry exactly as the first left it and
emits nothing (in particular no `group_locations` broadcast and no member
removal). -/
theorem leave_group_idempotent (s : ServerState) (sid1 sid2 : String) (p1 p2 : LeavePayload)
    (hg : normalizeGroup p2.group = normalizeGroup p1.group)
    (hu : strOfUserId p2.userId = strOfUserId p1.userId) :
    (leave_group (leave_group s sid1 p1).1 sid2 p2).1.groups =
      (leave_group s sid1 p1).1.groups ∧
    (leave_group (leave_group s sid1 p1).1 sid2 p2).2 = [] := by
  unfold leave_group
  rw [hg, hu]
  by_cases hv : normalizeGroup p1.group = "" ∨ strOfUserId p1.userId = ""
  · simp [hv]
  · simp only [hv, if_false]
    cases h : lookupA s.groups (normalizeGroup p1.group) with
    | none => simp [h]
    | some grp =>
      by_cases hm : (lookupA grp.members (strOfUserId p1.userId)).isSome
      · simp only [h, hm, if_true]
        simp [lookupA_updateA_self, lookupA_eraseA_self]
      · simp [h, hm]

theorem leave_group_idempotent_witness :
    normalizeGroup (.str "g1") = normalizeGroup (.str "g1") ∧
    strOfUserId (.str "u1") = strOfUserId (.str "u1") ∧
    (leave_group (leave_group ⟨[("G1", ⟨[("u1", Member.fresh "u1")]⟩)], []⟩ "s1"
        ⟨.str "g1", .str "u1"⟩).1 "s1" ⟨.str "g1", .str "u1"⟩).1.groups =
      (leave_group ⟨[("G1", ⟨[("u1", Member.fresh "u1")]⟩)], []⟩ "s1"
        ⟨.str "g1", .str "u1"⟩).1.groups ∧
    (leave_group (leave_group ⟨[("G1", ⟨[("u1", Member.fresh "u1")]⟩)], []⟩ "s1"
        ⟨.str "g1", .str "u1"⟩).1 "s1" ⟨.str "g1", .str "u1"⟩).2 = [] := by
  refine ⟨rfl, rfl, ?_⟩
  exact leave_group_idempotent ⟨[("G1", ⟨[("u1", Member.fresh "u1")]⟩)], []⟩ "s1" "s1"
    ⟨.str "g1", .str "u1"⟩ ⟨.str "g1", .str "u1"⟩ rfl rfl

theorem lookupA_disconnect (s : ServerState) (sid g : String) (grp : Group)
    (hg : lookupA s.groups g = some grp) :
    lookupA (disconnect s sid).1.groups g = some (clearGroup sid grp) := by
  show lookupA (s.groups.map (fun p => (p.1, clearGroup sid p.2))) g = _
  rw [lookupA_map_val, hg]
  rfl

theorem lookupA_clearGroup (sid uid : String) (grp : Group) (m : Member)
    (hm : lookupA grp.members uid = some m) :
    lookupA (clearGroup sid grp).members uid = some (clearMember sid m) := by
  show lookupA (grp.members.map (fun p => (p.1, clearMember sid p.2))) uid = _
  rw [lookupA_map_val, hm]
  rfl

/-- C1: a disconnect for a member's socket does not remove the member: it
only deletes `socketId`, leaving `lat`, `lon`, `updatedAt` and `name` (the
whole rest of the record) unchanged; and a subsequent `join_group` or
`location_update` for the same userId in the same group sets `socketId`
again, the previously stored position still being present (a rejoin leaves
`lat`/`lon`/`updatedAt` exactly as they were across the offline interval). -/
theorem disconnect_keeps_member_rejoin_restores (s : ServerState) (sid g uid : String)
    (grp : Group) (m : Member)
    (hg : lookupA s.groups g = some grp)
    (hm : lookupA grp.members uid = some m)
    (hsid : m.socketId = some sid)
    (hgne : g ≠ "") (hune : uid ≠ "") :
    getMember (disconnect s sid).1 g uid = some { m with socketId := none } ∧
    (∀ (sid2 : String) (p : JoinPayload),
      normalizeGroup p.group = g → strOfUserId p.userId = uid →
      ∃ m2, getMember (join_group (disconnect s sid).1 sid2 p).1 g uid = some m2 ∧
        m2.socketId = some sid2 ∧ m2.lat = m.lat ∧ m2.lon = m.lon ∧
        m2.updatedAt = m.updatedAt) ∧
    (∀ (sid2 : String) (now : ℚ) (p : LocPayload),
      normalizeGroup p.group = g → strOfUserId p.userId = uid →
      (p.lat.toNumber).isNaN = false → (p.lon.toNumber).isNaN = false →
      ∃ m2, getMember (location_update (disconnect s sid).1 sid2 now p).1 g uid = some m2 ∧
        m2.socketId = some sid2) := by
  have h1 : lookupA (disconnect s sid).1.groups g = some (clearGroup sid grp) :=
    lookupA_disconnect s sid g grp hg
  have h2 : lookupA (clearGroup sid grp).members uid = some { m with socketId := none } := by
    rw [lookupA_clearGroup sid uid grp m hm]
    simp [clearMember, hsid]
  refine ⟨by simp [getMember, h1, h2], ?_, ?_⟩
  · intro sid2 p hpg hpu
    unfold join_group
    rw [hpg, hpu]
    simp only [hgne, hune, false_or, if_false]
    rw [h1]
    simp only [Option.getD_some]
    rw [h2]
    simp only [Option.getD_some]
    refine ⟨{ m with name := some (jsOr p.name (JSValue.str "Anonymous")), socketId := some sid2 }, ?_, rfl, rfl, rfl, rfl⟩
    simp [getMember, lookupA_updateA_self]
  · intro sid2 now p hpg hpu hlat hlon
    unfold location_update
    rw [hpg, hpu]
    simp only [hgne, hune, hlat, hlon, false_or, if_false, Bool.false_eq_true]
    rw [h1]
    simp only [Option.getD_some]
    rw [h2]
    simp only [Option.getD_some]
    refine ⟨{ m with lat := some p.lat.toNumber, lon := some p.lon.toNumber, sport := some (jsOr p.sport (JSValue.str "unknown")), updatedAt := some (jsOr p.timestamp (JSValue.num (JSNum.finite now))), socketId := some sid2 }, ?_, rfl⟩
    simp [getMember, lookupA_updateA_self]

theorem disconnect_keeps_member_rejoin_restores_witness :
    lookupA demoState.groups "RIDE32" = some demoGroup ∧
    lookupA demoGroup.members "alice" = some demoAlice ∧
    demoAlice.socketId = some "sA" ∧ "RIDE32" ≠ "" ∧ "alice" ≠ "" ∧
    (getMember (disconnect demoState "sA").1 "RIDE32" "alice" =
        some { demoAlice with socketId := none } ∧
      (∀ (sid2 : String) (p : JoinPayload),
        normalizeGroup p.group = "RIDE32" → strOfUserId p.userId = "alice" →
        ∃ m2, getMember (join_group (disconnect demoState "sA").1 sid2 p).1
            "RIDE32" "alice" = some m2 ∧
          m2.socketId = some sid2 ∧ m2.lat = demoAlice.lat ∧ m2.lon = demoAlice.lon ∧
          m2.updatedAt = demoAlice.updatedAt) ∧
      (∀ (sid2 : String) (now : ℚ) (p : LocPayload),
        normalizeGroup p.group = "RIDE32" → strOfUserId p.userId = "alice" →
        (p.lat.toNumber).isNaN = false → (p.lon.toNumber).isNaN = false →
        ∃ m2, getMember (location_update (disconnect demoState "sA").1 sid2 now p).1
            "RIDE32" "alice" = some m2 ∧ m2.socketId = some sid2)) :=
  ⟨by decide, by decide, by decide, by decide, by decide,
    disconnect_keeps_member_rejoin_restores demoState "sA" "RIDE32" "alice"
      demoGroup demoAlice (by decide) (by decide) (by decide) (by decide) (by decide)⟩

/-- C2: on every successful join, the `group_state` snapshot sent to the
joining socket is the sanitized view of the stored group: it has exactly one
entry per member currently in the group (whether or not the member holds a
channel reference), each entry retaining the member's `lat`, `lon` and
`updatedAt`; and sanitization is independent of `socketId` (the sanitized
record type carries no channel-reference field at all). -/
theorem join_group_state_is_sanitized_snapshot (s : ServerState) (sid : String)
    (p : JoinPayload)
    (hg : normalizeGroup p.group ≠ "") (hu : strOfUserId p.userId ≠ "") :
    ∃ grp,
      lookupA (join_group s sid p).1.groups (normalizeGroup p.group) = some grp ∧
      (join_group s sid p).2.head? =
        some (.toSocket sid (.groupState (sanitizeGroup grp))) ∧
      (sanitizeGroup grp).map Prod.fst = grp.members.map Prod.fst ∧
      (∀ uid m, lookupA grp.members uid = some m →
        lookupA (sanitizeGroup grp) uid = some (sanitizeMember m) ∧
        (sanitizeMember m).lat = m.lat ∧ (sanitizeMember m).lon = m.lon ∧
        (sanitizeMember m).updatedAt = m.updatedAt) ∧
      (∀ (m : Member) (x : Option String),
        sanitizeMember { m with socketId := x } = sanitizeMember m) := by
  unfold join_group
  simp only [hg, hu, false_or, if_false]
  refine ⟨_, lookupA_updateA_self _ _ _, rfl, ?_, ?_, fun m x => rfl⟩
  · simp [sanitizeGroup]
  · intro uid m hm
    refine ⟨?_, rfl, rfl, rfl⟩
    unfold sanitizeGroup
    rw [lookupA_map_val, hm]
    rfl

theorem join_group_state_is_sanitized_snapshot_witness :
    normalizeGroup demoJoinB.group ≠ "" ∧ strOfUserId demoJoinB.userId ≠ "" ∧
    ∃ grp,
      lookupA (join_group (join_group ⟨[], []⟩ "sA" demoJoinA).1 "sB" demoJoinB).1.groups
          (normalizeGroup demoJoinB.group) = some grp ∧
      (join_group (join_group ⟨[], []⟩ "sA" demoJoinA).1 "sB" demoJoinB).2.head? =
        some (.toSocket "sB" (.groupState (sanitizeGroup grp))) ∧
      (sanitizeGroup grp).map Prod.fst = grp.members.map Prod.fst ∧
      (∀ uid m, lookupA grp.members uid = some m →
        lookupA (sanitizeGroup grp) uid = some (sanitizeMember m) ∧
        (sanitizeMember m).lat = m.lat ∧ (sanitizeMember m).lon = m.lon ∧
        (sanitizeMember m).updatedAt = m.updatedAt) ∧
      (∀ (m : Member) (x : Option String),
        sanitizeMember { m with socketId := x } = sanitizeMember m) :=
  ⟨by decide, by decide,
    join_group_state_is_sanitized_snapshot (join_group ⟨[], []⟩ "sA" demoJoinA).1 "sB"
      demoJoinB (by decide) (by decide)⟩

theorem isNaN_eq_false_of_isFinite (n : JSNum) (h : n.isFinite = true) :
    n.isNaN = false := by
  cases n <;> simp [JSNum.isFinite, JSNum.isNaN] at h ⊢

/-- C4: a `location_update` with non-empty normalized group and userId and
finite coordinates, for a `(group, userId)` with no member record yet,
creates the group and the member (auto-join): the stored record carries the
coerced position, the activity (default sentinel if falsy), the timestamp,
and the sending socket as channel reference; and one `group_locations`
broadcast goes to the group's room. -/
theorem location_update_auto_join (s : ServerState) (sid : String) (now : ℚ) (p : LocPayload)
    (hg : normalizeGroup p.group ≠ "") (hu : strOfUserId p.userId ≠ "")
    (hlat : (p.lat.toNumber).isFinite = true) (hlon : (p.lon.toNumber).isFinite = true)
    (habs : getMember s (normalizeGroup p.group) (strOfUserId p.userId) = none) :
    ∃ grp,
      lookupA (location_update s sid now p).1.groups (normalizeGroup p.group) = some grp ∧
      lookupA grp.members (strOfUserId p.userId) = some ⟨strOfUserId p.userId, none, some p.lat.toNumber, some p.lon.toNumber, some (jsOr p.sport (.str "unknown")), some (jsOr p.timestamp (.num (.finite now))), some sid⟩ ∧
      (location_update s sid now p).2 =
        [.toRoom (normalizeGroup p.group) (.groupLocations grp.members)] := by
  have hlat2 := isNaN_eq_false_of_isFinite _ hlat
  have hlon2 := isNaN_eq_false_of_isFinite _ hlon
  unfold location_update
  simp only [hg, hu, hlat2, hlon2, false_or, if_false, Bool.false_eq_true]
  cases hgl : lookupA s.groups (normalizeGroup p.group) with
  | none =>
    refine ⟨_, lookupA_updateA_self _ _ _, ?_, rfl⟩
    rw [lookupA_updateA_self]
    simp [lookupA, Member.fresh]
  | some grp0 =>
    have hm0 : lookupA grp0.members (strOfUserId p.userId) = none := by
      simpa [getMember, hgl] using habs
    refine ⟨_, lookupA_updateA_self _ _ _, ?_, rfl⟩
    rw [lookupA_updateA_self]
    simp [hm0, Member.fresh]

theorem location_update_auto_join_witness :
    normalizeGroup demoLoc.group ≠ "" ∧ strOfUserId demoLoc.userId ≠ "" ∧
    (demoLoc.lat.toNumber).isFinite = true ∧ (demoLoc.lon.toNumber).isFinite = true ∧
    getMember ⟨[], []⟩ (normalizeGroup demoLoc.group) (strOfUserId demoLoc.userId) = none ∧
    ∃ grp,
      lookupA (location_update ⟨[], []⟩ "s9" 42 demoLoc).1.groups
          (normalizeGroup demoLoc.group) = some grp ∧
      lookupA grp.members (strOfUserId demoLoc.userId) = some ⟨strOfUserId demoLoc.userId, none, some demoLoc.lat.toNumber, some demoLoc.lon.toNumber, some (jsOr demoLoc.sport (.str "unknown")), some (jsOr demoLoc.timestamp (.num (.finite 42))), some "s9"⟩ ∧
      (location_update ⟨[], []⟩ "s9" 42 demoLoc).2 =
        [.toRoom (normalizeGroup demoLoc.group) (.groupLocations grp.members)] :=
  ⟨by decide, by decide, by decide, by decide, by decide,
    location_update_auto_join ⟨[], []⟩ "s9" 42 demoLoc
      (by decide) (by decide) (by decide) (by decide) (by decide)⟩

/-- C10: the stored `updatedAt` of a valid `location_update` is the
caller's `timestamp` when that value is truthy and the receipt time `now`
otherwise; in particular the number `0` is falsy, so a `timestamp: 0` is
replaced by the receipt time. -/
theorem location_update_timestamp_falsy_fallback (s : ServerState) (sid : String) (now : ℚ)
    (p : LocPayload)
    (hg : normalizeGroup p.group ≠ "") (hu : strOfUserId p.userId ≠ "")
    (hlat : (p.lat.toNumber).isNaN = false) (hlon : (p.lon.toNumber).isNaN = false) :
    (getMember (location_update s sid now p).1 (normalizeGroup p.group)
        (strOfUserId p.userId)).map Member.updatedAt =
      some (some (if p.timestamp.truthy then p.timestamp
        else JSValue.num (JSNum.finite now))) ∧
    JSValue.truthy (JSValue.num (JSNum.finite 0)) = false := by
  refine ⟨?_, by decide⟩
  unfold location_update
  simp only [hg, hu, hlat, hlon, false_or, if_false, Bool.false_eq_true]
  simp [getMember, lookupA_updateA_self, jsOr]

theorem location_update_timestamp_falsy_fallback_witness :
    normalizeGroup (JSValue.str "G") ≠ "" ∧ strOfUserId (JSValue.str "u") ≠ "" ∧
    ((JSValue.num (.finite 45)).toNumber).isNaN = false ∧
    ((JSValue.num (.finite 7)).toNumber).isNaN = false ∧
    ((getMember (location_update ⟨[], []⟩ "s1" 777
          ⟨.str "G", .str "u", .num (.finite 45), .num (.finite 7), .undefined,
           .num (.finite 0)⟩).1
        (normalizeGroup (JSValue.str "G")) (strOfUserId (JSValue.str "u"))).map
        Member.updatedAt =
      some (some (if (JSValue.num (JSNum.finite 0)).truthy then JSValue.num (JSNum.finite 0)
        else JSValue.num (JSNum.finite 777))) ∧
      JSValue.truthy (JSValue.num (JSNum.finite 0)) = false) :=
  ⟨by decide, by decide, by decide, by decide,
    location_update_timestamp_falsy_fallback ⟨[], []⟩ "s1" 777
      ⟨.str "G", .str "u", .num (.finite 45), .num (.finite 7), .undefined,
       .num (.finite 0)⟩ (by decide) (by decide) (by decide) (by decide)⟩

theorem countP_disconnect_list (sid gname : String) (l : List (String × Group))
    (hnd : (l.map Prod.fst).Nodup) :
    (l.filterMap (fun p => if groupChanged sid p.2 then some (Emit.toRoom p.1 (OutMsg.groupLocations (clearGroup sid p.2).members)) else none)).countP (isGroupLocTo gname) =
      (match lookupA l gname with
       | some g => if groupChanged sid g then 1 else 0
       | none => 0) := by
  induction l with
  | nil => rfl
  | cons hd tl ih =>
    obtain ⟨k, g⟩ := hd
    rw [List.map_cons, List.nodup_cons] at hnd
    obtain ⟨hk, hnd⟩ := hnd
    by_cases hkg : k = gname
    · subst hkg
      cases hc : groupChanged sid g with
      | true =>
        simp [List.filterMap_cons, hc, List.countP_cons, isGroupLocTo, lookupA]
        intro a x xg hmem hch ha
        subst ha
        have hxk : x ≠ k := by
          intro h
          subst h
          have hk2 : x ∉ List.map Prod.fst tl := hk
          exact hk2 (List.mem_map_of_mem Prod.fst hmem)
        simp [hxk]
      | false =>
        simp [List.filterMap_cons, hc, lookupA]
        intro a x xg hmem hch ha
        subst ha
        have hxk : x ≠ k := by
          intro h
          subst h
          have hk2 : x ∉ List.map Prod.fst tl := hk
          exact hk2 (List.mem_map_of_mem Prod.fst hmem)
        simp [isGroupLocTo, hxk]
    · cases hc : groupChanged sid g with
      | true =>
        simp [List.filterMap_cons, hc, List.countP_cons, isGroupLocTo, hkg, lookupA,
          ih hnd]
      | false =>
        simp [List.filterMap_cons, hc, hkg, lookupA, ih hnd]

/-- C6: a disconnect emits exactly one `group_locations` broadcast to each
group holding at least one member whose channel reference matched the
closed socket — one per group, however many such members it has — and none
to a group with no matching member (or to a room that is no group). -/
theorem disconnect_broadcast_count (s : ServerState) (sid gname : String)
    (hnd : (s.groups.map Prod.fst).Nodup) :
    ((disconnect s sid).2.countP (isGroupLocTo gname)) =
      (match lookupA s.groups gname with
       | some g => if groupChanged sid g then 1 else 0
       | none => 0) :=
  countP_disconnect_list sid gname s.groups hnd

theorem disconnect_broadcast_count_witness :
    (demoState.groups.map Prod.fst).Nodup ∧
    ((disconnect demoState "sA").2.countP (isGroupLocTo "RIDE32")) = 1 ∧
    ((disconnect demoState "sA").2.countP (isGroupLocTo "OTHER")) = 0 ∧
    ((disconnect demoState "sA").2.countP (isGroupLocTo "RIDE32")) =
      (match lookupA demoState.groups "RIDE32" with
       | some g => if groupChanged "sA" g then 1 else 0
       | none => 0) :=
  ⟨by decide, by decide, by decide,
    disconnect_broadcast_count demoState "sA" "RIDE32" (by decide)⟩

/-- C3 as frozen is false on the code: the handler drops a coordinate only
when it coerces to `NaN` (`Number.isNaN`), not when it is non-finite.  With
`lat: Infinity` — which does not coerce to a finite number — the registry
does change and a broadcast is emitted. -/
theorem location_update_infinite_not_dropped :
    ((JSValue.num JSNum.posInf).toNumber.isFinite = false) ∧
    (location_update ⟨[], []⟩ "s1" 5 ⟨.str "G", .str "u", .num .posInf, .num (.finite 0), .undefined, .undefined⟩).1 ≠ ⟨[], []⟩ ∧
    (location_update ⟨[], []⟩ "s1" 5 ⟨.str "G", .str "u", .num .posInf, .num (.finite 0), .undefined, .undefined⟩).2 ≠ [] := by
  refine ⟨rfl, by decide, by decide⟩

/-- C3 amended: a `location_update` whose latitude or longitude coerces to
`NaN` (absent or non-numeric values; values coercing to `±Infinity` are
accepted) leaves the whole state unchanged and emits nothing — no
broadcast and no error message. -/
theorem location_update_nan_dropped (s : ServerState) (sid : String) (now : ℚ)
    (p : LocPayload)
    (h : (p.lat.toNumber).isNaN = true ∨ (p.lon.toNumber).isNaN = true) :
    location_update s sid now p = (s, []) := by
  unfold location_update
  rcases h with h | h <;> simp [h]

theorem location_update_nan_dropped_witness :
    (((JSValue.str "abc").toNumber).isNaN = true ∨
      ((JSValue.num (.finite 0)).toNumber).isNaN = true) ∧
    location_update ⟨[("G", ⟨[]⟩)], []⟩ "s1" 5
        ⟨.str "G", .str "u", .str "abc", .num (.finite 0), .undefined, .undefined⟩ =
      (⟨[("G", ⟨[]⟩)], []⟩, []) :=
  ⟨Or.inl (by decide),
    location_update_nan_dropped ⟨[("G", ⟨[]⟩)], []⟩ "s1" 5
      ⟨.str "G", .str "u", .str "abc", .num (.finite 0), .undefined, .undefined⟩
      (Or.inl (by decide))⟩

/-- C9 as frozen is false on the code: the `group_locations` payload a
disconnect broadcasts is the raw member mapping, not the sanitized view.
In the spec's own scenario (A and B in `RIDE32`, A disconnects) the single
broadcast still carries B's socket identifier `sB`, even though A's entry
has its identifier cleared while keeping position and `updatedAt`. -/
theorem disconnect_broadcast_contains_socketId :
    (disconnect demoState "sA").2 = [.toRoom "RIDE32" (.groupLocations demoPayload)] ∧
    (lookupA demoPayload "bob").map Member.socketId = some (some "sB") ∧
    (lookupA demoPayload "alice").map Member.socketId = some none ∧
    (lookupA demoPayload "alice").bind Member.lat = some (JSNum.finite 45) ∧
    (lookupA demoPayload "alice").bind Member.updatedAt =
      some (JSValue.num (JSNum.finite 1000)) := by
  refine ⟨by decide, by decide, by decide, by decide, by decide⟩

/-- C9 amended: in the `group_locations` broadcast a disconnect triggers
for a member's group, the entry of every member whose channel reference
matched the closed socket has the socket identifier deleted, while its last
position and `updatedAt` (the whole rest of the record) are still present.
Entries of members on other sockets are sent as stored, socket identifier
included. -/
theorem disconnect_broadcast_clears_matched (s : ServerState) (sid g uid : String)
    (grp : Group) (m : Member)
    (hg : lookupA s.groups g = some grp)
    (hm : lookupA grp.members uid = some m)
    (hsid : m.socketId = some sid) :
    Emit.toRoom g (OutMsg.groupLocations (clearGroup sid grp).members) ∈
      (disconnect s sid).2 ∧
    lookupA (clearGroup sid grp).members uid = some { m with socketId := none } := by
  constructor
  · show _ ∈ s.groups.filterMap _
    rw [List.mem_filterMap]
    refine ⟨(g, grp), mem_of_lookupA s.groups g grp hg, ?_⟩
    have hch : groupChanged sid grp = true := by
      unfold groupChanged
      rw [List.any_eq_true]
      exact ⟨(uid, m), mem_of_lookupA grp.members uid m hm, by simp [hsid]⟩
    simp [hch]
  · rw [lookupA_clearGroup sid uid grp m hm]
    simp [clearMember, hsid]

theorem disconnect_broadcast_clears_matched_witness :
    lookupA demoState.groups "RIDE32" = some demoGroup ∧
    lookupA demoGroup.members "alice" = some demoAlice ∧
    demoAlice.socketId = some "sA" ∧
    (Emit.toRoom "RIDE32" (OutMsg.groupLocations (clearGroup "sA" demoGroup).members) ∈
        (disconnect demoState "sA").2 ∧
      lookupA (clearGroup "sA" demoGroup).members "alice" =
        some { demoAlice with socketId := none }) :=
  ⟨by decide, by decide, by decide,
    disconnect_broadcast_clears_matched demoState "sA" "RIDE32" "alice"
      demoGroup demoAlice (by decide) (by decide) (by decide)⟩

end GroupTracker
